import Mathlib

/-!
Shallow embedding of `backend/main.py` (hydro-ai): a FastAPI service that
delegates Sentinel-2 retrieval, cloud masking, NDWI water classification and
change detection to the Google Earth Engine (EE) compute service.

Rasters are modelled per pixel: a pixel carries `none` when masked (EE
"no data") and `some v` otherwise.  Remote interactions are modelled as
`Except String` outcomes supplied by an environment record, and the handler
is an explicit state-passing function that also records the sequence of
remote/compute steps it performs.
-/

/-- A single-band raster: pixel index to optional (masked) value. -/
abbrev Raster := ℕ → Option ℕ

/-- A multi-band image: pixel index to optional (masked) band lookup. -/
abbrev Img := ℕ → Option (String → ℚ)

/-- EE `image.eq(c)` per pixel: masked input gives masked output. -/
def eeEq (x : Option ℕ) (c : ℕ) : Option Bool :=
  x.map (fun v => v == c)

/-- EE `a.And(b)` per pixel: masked whenever either operand is masked. -/
def eeAnd (a b : Option Bool) : Option Bool :=
  match a, b with
  | some x, some y => some (x && y)
  | _, _ => none

/-- EE `base.where(cond, v)` per pixel: rewrite to `v` exactly where the
condition is unmasked and true; elsewhere (false or masked) keep `base`. -/
def eeWhere (base : ℕ) (cond : Option Bool) (v : ℕ) : ℕ :=
  match cond with
  | some true => v
  | _ => base

/-- EE `selfMask()` per pixel on an integer value: zero becomes masked. -/
def selfMask (v : ℕ) : Option ℕ :=
  if v = 0 then none else some v

/-- Condition of `main.py:113`: `water_t1.eq(0).And(water_t2.eq(1))` (gain). -/
def gainCond (w1 w2 : Option ℕ) : Option Bool :=
  eeAnd (eeEq w1 0) (eeEq w2 1)

/-- Condition of `main.py:114`: `water_t1.eq(1).And(water_t2.eq(0))` (loss). -/
def lossCond (w1 w2 : Option ℕ) : Option Bool :=
  eeAnd (eeEq w1 1) (eeEq w2 0)

/-- Condition of `main.py:115`: `water_t1.eq(1).And(water_t2.eq(1))`
(persistent). -/
def persistCond (w1 w2 : Option ℕ) : Option Bool :=
  eeAnd (eeEq w1 1) (eeEq w2 1)

/-- Change-raster pixel, `main.py:112-116`: start from `ee.Image(0)`, apply
the three `where` rewrites in source order, then `selfMask()`. -/
def changePixel (w1 w2 : Option ℕ) : Option ℕ :=
  selfMask
    (eeWhere
      (eeWhere
        (eeWhere 0 (gainCond w1 w2) 1)
        (lossCond w1 w2) 2)
      (persistCond w1 w2) 3)

/-- The change detector applied raster-wise to the two water masks. -/
def detect_change (w1 w2 : Raster) : Raster :=
  fun p => changePixel (w1 p) (w2 p)

/-- `calculate_ndwi`, `main.py:70-71`: `normalizedDifference(['B3','B8'])`
per pixel, masked input stays masked. -/
def calculate_ndwi (img : Img) : ℕ → Option ℚ :=
  fun p => (img p).map (fun bands =>
    (bands "B3" - bands "B8") / (bands "B3" + bands "B8"))

/-- `classify_water`, `main.py:73-75`: threshold the NDWI with a strict
`gt`, yielding a 0/1 water mask (masked pixels stay masked). -/
def classify_water (img : Img) (threshold : ℚ) : Raster :=
  fun p => (calculate_ndwi img p).map (fun x => if x > threshold then 1 else 0)

/-- Water-mask predicate written from the spec's words (section 4.3): the
normalized difference of the green and near-infrared bands, thresholded to a
binary water/non-water decision. -/
def waterMaskSpec (green nir threshold : ℚ) : Bool :=
  decide ((green - nir) / (green + nir) > threshold)

/-- Opaque date order used by the collection's `filterDate`: lexicographic on
code points, which coincides with chronological order on ISO date strings. -/
def dateLtb (a b : String) : Bool := decide (a.data < b.data)

/-- One catalogued Sentinel-2 scene, as visible to the pipeline of
`get_sentinel_mosaic`: footprint-intersection test (by geometry id),
acquisition date, `CLOUDY_PIXEL_PERCENTAGE` property, the `QA60`
quality-assurance band and the raw reflectance bands. -/
structure EEImage where
  intersects : ℕ → Bool
  date : String
  cloudyPct : ℚ
  qa60 : ℕ → ℕ
  band : String → ℕ → ℚ

/-- A geometry (ROI): an id used by footprint-intersection filtering, and a
pixel-membership test used by `clip` and `reduceRegion`. -/
structure Geom where
  gid : ℕ
  containsPix : ℕ → Bool

/-- Pixel passes the `mask_clouds` QA test of `main.py:57-62`: bit 10
(cloud) and bit 11 (cirrus) of `QA60` must both be zero. -/
def cloudFree (i : EEImage) (p : ℕ) : Bool :=
  (i.qa60 p &&& (1 <<< 10) == 0) && (i.qa60 p &&& (1 <<< 11) == 0)

/-- `mask_clouds`, `main.py:57-63`: mask cloudy/cirrus pixels by the QA bits,
then divide the reflectance bands by 10000. -/
def mask_clouds (i : EEImage) : Img :=
  fun p => if cloudFree i p then some (fun b => i.band b p / 10000) else none

/-- The collection filter of `main.py:46-49`: `filterBounds(roi)`,
`filterDate(start, end)` (start inclusive, end exclusive), and
`ee.Filter.lt('CLOUDY_PIXEL_PERCENTAGE', 30)` (strict). -/
def keepImage (roi : Geom) (startD endD : String) (i : EEImage) : Bool :=
  i.intersects roi.gid && !dateLtb i.date startD && dateLtb i.date endD &&
    decide (i.cloudyPct < 30)

/-- Insert into a sorted list of rationals. -/
def insertSorted (x : ℚ) : List ℚ → List ℚ
  | [] => [x]
  | y :: ys => if x ≤ y then x :: y :: ys else y :: insertSorted x ys

/-- Insertion sort on rationals. -/
def sortQ (l : List ℚ) : List ℚ := l.foldr insertSorted []

/-- Median of a list of rationals (EE `median()` reducer on the unmasked
values at one pixel); junk value 0 on the empty list, never used there. -/
def medianQ (l : List ℚ) : ℚ :=
  let s := sortQ l
  if s.length % 2 = 1 then s.getD (s.length / 2) 0
  else (s.getD (s.length / 2 - 1) 0 + s.getD (s.length / 2) 0) / 2

/-- One pixel of `s2.map(mask_clouds).median()`: the per-band median over
the images whose QA bits leave the pixel unmasked; masked when no image
contributes. -/
def mosaicPixel (imgs : List EEImage) (p : ℕ) : Option (String → ℚ) :=
  let contrib := imgs.filter (fun i => cloudFree i p)
  if contrib.isEmpty then none
  else some (fun b => medianQ (contrib.map (fun i => i.band b p / 10000)))

/-- `get_sentinel_mosaic`, `main.py:42-68`.  The remote query outcome is
supplied as an `Except`: an exception is logged and re-raised unchanged
(`main.py:66-68`); otherwise the collection is filtered, its size queried,
`none` (the "no data" sentinel) returned when the size is zero, and the
cloud-masked median clipped to the ROI returned otherwise. -/
def get_sentinel_mosaic (remote : Except String (List EEImage)) (roi : Geom)
    (startD endD : String) : Except String (Option Img) :=
  match remote with
  | .error e => .error e
  | .ok catalog =>
    let s2 := catalog.filter (keepImage roi startD endD)
    if s2.length = 0 then .ok none
    else .ok (some (fun p => if roi.containsPix p then mosaicPixel s2 p else none))

/-- Band value of a mosaic at a pixel (masked pixels give `none`). -/
def pixBand (m : Img) (p : ℕ) (b : String) : Option ℚ :=
  (m p).map (fun f => f b)

/-- The `stats` object of the success response, `main.py:136-140`. -/
structure Stats where
  gain_sqkm : ℚ
  loss_sqkm : ℚ
  persistent_sqkm : ℚ
deriving DecidableEq

/-- `pixel_area_sqkm = (10 * 10) / 1e6`, `main.py:132`. -/
def pixel_area_sqkm : ℚ := (10 * 10) / 1000000

/-- Python `histogram.get(k, 0)` on the frequency histogram. -/
def histGet (hist : List (String × ℚ)) (k : String) : ℚ :=
  (hist.lookup k).getD 0

/-- Assemble the three area figures from the histogram, `main.py:137-139`. -/
def buildStats (hist : List (String × ℚ)) : Stats :=
  { gain_sqkm := histGet hist "1" * pixel_area_sqkm
    loss_sqkm := histGet hist "2" * pixel_area_sqkm
    persistent_sqkm := histGet hist "3" * pixel_area_sqkm }

/-- The parsed request body, `main.py:79-84`. -/
structure AnalysisRequest where
  geojson : String
  date1_start : String
  date1_end : String
  date2_start : String
  date2_end : String

/-- Outcomes of the remote/library interactions of one `/analyze`
execution: `ee.Geometry` construction, the two collection queries, and the
`getMapId` / `reduceRegion().getInfo()` calls. -/
structure Env where
  geom : Except String Geom
  fetch1 : Except String (List EEImage)
  fetch2 : Except String (List EEImage)
  tileUrl : Except String String
  statsInfo : Except String (List (String × List (String × ℚ)))

/-- The remote/compute steps the handler performs, in order. -/
inductive Ev where
  | fetch1
  | fetch2
  | classify1
  | classify2
  | detect
  | render
  | stats
deriving DecidableEq

/-- Outcome of one request: a success body, or an HTTP error response. -/
inductive HResult where
  | ok (tile_url : String) (s : Stats)
  | httpError (code : ℕ) (detail : String)
deriving DecidableEq

/-- The configured suggestion wording for an empty Period 1, `main.py:101`. -/
def period1Suggestion : String :=
  "Try a different month or expand the date range."

/-- The configured suggestion wording for an empty Period 2, `main.py:104`. -/
def period2Suggestion : String :=
  "Monsoon clouds might be blocking the view. Try \x27November\x27 or \x27April\x27."

/-- The 404 detail for an empty Period 1, `main.py:101`. -/
def period1Msg (req : AnalysisRequest) : String :=
  "No clear images found for Period 1 (" ++ req.date1_start ++ " to " ++
    req.date1_end ++ "). \nSuggestion: " ++ period1Suggestion

/-- The 404 detail for an empty Period 2, `main.py:104`. -/
def period2Msg (req : AnalysisRequest) : String :=
  "No clear images found for Period 2 (" ++ req.date2_start ++ " to " ++
    req.date2_end ++ "). \nSuggestion: " ++ period2Suggestion

/-- `analyze_change`, `main.py:88-147`: parse the geometry, fetch both
mosaics, check the two sentinels (Period 1 first), classify water at
threshold 0, detect change, render, reduce to a histogram and shape the
response; `HTTPException`s pass through and any other exception becomes a
500 carrying the raw message.  The second component records the
remote/compute steps performed. -/
def analyze_change (env : Env) (req : AnalysisRequest) : HResult × List Ev :=
  match env.geom with
  | .error e => (.httpError 500 e, [])
  | .ok roi =>
    match get_sentinel_mosaic env.fetch1 roi req.date1_start req.date1_end with
    | .error e => (.httpError 500 e, [.fetch1])
    | .ok m1 =>
      match get_sentinel_mosaic env.fetch2 roi req.date2_start req.date2_end with
      | .error e => (.httpError 500 e, [.fetch1, .fetch2])
      | .ok m2 =>
        match m1 with
        | none => (.httpError 404 (period1Msg req), [.fetch1, .fetch2])
        | some img1 =>
          match m2 with
          | none => (.httpError 404 (period2Msg req), [.fetch1, .fetch2])
          | some img2 =>
            let w1 := classify_water img1 0
            let w2 := classify_water img2 0
            let _chg := detect_change w1 w2
            match env.tileUrl with
            | .error e =>
              (.httpError 500 e,
                [.fetch1, .fetch2, .classify1, .classify2, .detect, .render])
            | .ok url =>
              match env.statsInfo with
              | .error e =>
                (.httpError 500 e,
                  [.fetch1, .fetch2, .classify1, .classify2, .detect, .render, .stats])
              | .ok info =>
                (.ok url (buildStats ((info.lookup "constant").getD [])),
                  [.fetch1, .fetch2, .classify1, .classify2, .detect, .render, .stats])

/-- Detail of the framework's response to a body that fails schema
validation (FastAPI answers 422 before the handler runs). -/
def validationErrorDetail : String := "Request body failed schema validation"

/-- The request pipeline: a body that fails schema validation is rejected
with 422 before the handler runs (no remote step); otherwise the handler
runs on the parsed body. -/
def handleRequest (env : Env) (body : Option AnalysisRequest) : HResult × List Ev :=
  match body with
  | none => (.httpError 422 validationErrorDetail, [])
  | some req => analyze_change env req

/-- HTTP 4xx test. -/
def isClientError (c : ℕ) : Bool := decide (400 ≤ c) && decide (c < 500)

/-- Python truthiness of an optional environment-variable string: absent
and empty are both falsy. -/
def pyTruthy : Option String → Bool
  | none => false
  | some s => !(s == "")

/-- Configuration and outcomes seen by the startup authentication
bootstrap, `main.py:15-28`. -/
structure AuthEnv where
  service_account : Option String
  key_file : Option String
  pathExists : String → Bool
  serviceInit : Except String Unit
  defaultInit : Except String Unit

/-- What the bootstrap ended with: service-account auth, default auth, or a
logged failure (the process continues in every case). -/
inductive AuthResult where
  | serviceOk
  | defaultOk
  | failed (msg : String)
deriving DecidableEq

/-- The branch condition of `main.py:20`:
`if service_account and key_file and os.path.exists(key_file)`. -/
def useServiceAccount (env : AuthEnv) : Bool :=
  pyTruthy env.service_account && pyTruthy env.key_file &&
    env.pathExists (env.key_file.getD "")

/-- The startup bootstrap, `main.py:16-28`: choose the credential path,
run the corresponding initialization, and catch any exception into a
logged, non-fatal `failed` outcome. -/
def authBootstrap (env : AuthEnv) : AuthResult :=
  if useServiceAccount env then
    match env.serviceInit with
    | .ok _ => .serviceOk
    | .error e => .failed e
  else
    match env.defaultInit with
    | .ok _ => .defaultOk
    | .error e => .failed e

/-- A cloud-free catalogued test scene used by the concrete witnesses. -/
def testImg : EEImage where
  intersects := fun _ => true
  date := "2020-01-15"
  cloudyPct := 10
  qa60 := fun _ => 0
  band := fun _ _ => 5000

/-- A test ROI containing every pixel. -/
def testRoi : Geom where
  gid := 0
  containsPix := fun _ => true

/-- A test request body. -/
def testReq : AnalysisRequest where
  geojson := "polygon"
  date1_start := "2020-01-01"
  date1_end := "2020-02-01"
  date2_start := "2021-01-01"
  date2_end := "2021-02-01"

/-- Execution where both collection queries succeed but match zero images. -/
def envBothEmpty : Env where
  geom := .ok testRoi
  fetch1 := .ok []
  fetch2 := .ok []
  tileUrl := .ok "tiles"
  statsInfo := .ok []

/-- Execution where Period 1 matches zero images and the Period-2 query
raises an exception. -/
def envEmptyThenRaise : Env where
  geom := .ok testRoi
  fetch1 := .ok []
  fetch2 := .error "boom"
  tileUrl := .ok "tiles"
  statsInfo := .ok []

/-- Execution whose geometry construction fails client-side. -/
def envBadGeometry : Env where
  geom := .error "Invalid GeoJSON geometry."
  fetch1 := .ok []
  fetch2 := .ok []
  tileUrl := .ok "tiles"
  statsInfo := .ok []

/-- Auth configuration with a fully configured service account whose
initialization succeeds. -/
def envServiceAuth : AuthEnv where
  service_account := some "svc"
  key_file := some "key.json"
  pathExists := fun _ => true
  serviceInit := .ok ()
  defaultInit := .ok ()

example : changePixel (some 0) (some 0) = none := by decide
example : changePixel (some 0) (some 1) = some 1 := by decide
example : changePixel (some 1) (some 0) = some 2 := by decide
example : changePixel (some 1) (some 1) = some 3 := by decide
example : changePixel none (some 1) = none := by decide

/-- C1: the three change conditions (gain 0→1, loss 1→0, persistent 1→1)
are pairwise disjoint, so each pixel of the change raster receives at most
one class, the only possible outputs are the classes 1, 2, 3 or masked, and
a pixel with no water in either period (0→0) is masked out entirely. -/
theorem change_classes_disjoint_and_nodata_masked (w1 w2 : Option ℕ) :
    (¬ (gainCond w1 w2 = some true ∧ lossCond w1 w2 = some true)) ∧
    (¬ (gainCond w1 w2 = some true ∧ persistCond w1 w2 = some true)) ∧
    (¬ (lossCond w1 w2 = some true ∧ persistCond w1 w2 = some true)) ∧
    (changePixel w1 w2 = none ∨ changePixel w1 w2 = some 1 ∨
      changePixel w1 w2 = some 2 ∨ changePixel w1 w2 = some 3) ∧
    (w1 = some 0 → w2 = some 0 → changePixel w1 w2 = none) := by
  rcases w1 with _ | n <;> rcases w2 with _ | m <;>
    simp [gainCond, lossCond, persistCond, eeAnd, eeEq, changePixel, eeWhere,
      selfMask] <;>
    by_cases hn0 : n = 0 <;> by_cases hn1 : n = 1 <;>
    by_cases hm0 : m = 0 <;> by_cases hm1 : m = 1 <;>
    simp_all

/-- Witness for C1 at the concrete no-water pixel (0, 0). -/
theorem change_classes_disjoint_and_nodata_masked_witness :
    changePixel (some 0) (some 0) = none :=
  (change_classes_disjoint_and_nodata_masked (some 0) (some 0)).2.2.2.2 rfl rfl

/-- C7: the water classifier is a pure per-pixel function of its composite:
it equals the spec-side predicate (normalized difference of bands B3 and B8
thresholded) mapped over the composite, and it only ever produces a binary
0/1 mask (or masked where the composite is masked). -/
theorem classify_water_matches_spec (img : Img) (t : ℚ) (p : ℕ) :
    classify_water img t p =
      (img p).map (fun bands =>
        if waterMaskSpec (bands "B3") (bands "B8") t then 1 else 0) ∧
    (classify_water img t p = none ∨ classify_water img t p = some 0 ∨
      classify_water img t p = some 1) := by
  constructor
  · rcases h : img p with _ | bands
    · simp [classify_water, calculate_ndwi, h]
    · by_cases hgt : (bands "B3" - bands "B8") / (bands "B3" + bands "B8") > t
      · simp [classify_water, calculate_ndwi, waterMaskSpec, h, hgt]
      · simp [classify_water, calculate_ndwi, waterMaskSpec, h, hgt]
  · rcases h : img p with _ | bands
    · simp [classify_water, calculate_ndwi, h]
    · by_cases hgt : (bands "B3" - bands "B8") / (bands "B3" + bands "B8") > t <;>
        simp [classify_water, calculate_ndwi, h, hgt]

/-- C10: classification thresholds the NDWI with a strict greater-than: a
pixel is water exactly when its index strictly exceeds the threshold, so an
index exactly equal to the threshold (e.g. 0.0 under the default) is
classified non-water. -/
theorem classify_water_strict_gt (img : Img) (p : ℕ) (t x : ℚ)
    (h : calculate_ndwi img p = some x) :
    (classify_water img t p = some 1 ↔ x > t) ∧
    (classify_water img t p = some 0 ↔ ¬ x > t) ∧
    (x = t → classify_water img t p = some 0) := by
  have hcw : classify_water img t p = some (if x > t then 1 else 0) := by
    simp [classify_water, h]
  by_cases hgt : x > t
  · simp [hcw, hgt]
    intro he
    exact absurd hgt (by simp [he])
  · simp [hcw, hgt]

/-- Witness for C10: a composite with equal B3 and B8 values has NDWI
exactly 0 and is classified non-water at the default threshold 0. -/
theorem classify_water_strict_gt_witness :
    classify_water (fun _ => some (fun _ => 1)) 0 0 = some 0 :=
  (classify_water_strict_gt (fun _ => some (fun _ => 1)) 0 0 0
    (by norm_num [calculate_ndwi])).2.2 rfl

/-- C3: each reported area is the histogram count for that class times
exactly 0.0001 km² (the 10m × 10m pixel area), and a class missing from
the histogram is reported as exactly 0 (the field is always present). -/
theorem stats_area_linear (hist : List (String × ℚ)) (n : ℚ) :
    (hist.lookup "1" = some n → (buildStats hist).gain_sqkm = n * (1 / 10000)) ∧
    (hist.lookup "1" = none → (buildStats hist).gain_sqkm = 0) ∧
    (hist.lookup "2" = some n → (buildStats hist).loss_sqkm = n * (1 / 10000)) ∧
    (hist.lookup "2" = none → (buildStats hist).loss_sqkm = 0) ∧
    (hist.lookup "3" = some n → (buildStats hist).persistent_sqkm = n * (1 / 10000)) ∧
    (hist.lookup "3" = none → (buildStats hist).persistent_sqkm = 0) ∧
    pixel_area_sqkm = 1 / 10000 := by
  refine ⟨fun h => ?_, fun h => ?_, fun h => ?_, fun h => ?_, fun h => ?_,
    fun h => ?_, by norm_num [pixel_area_sqkm]⟩ <;>
    simp only [buildStats, histGet, h, Option.getD_some, Option.getD_none,
      pixel_area_sqkm, zero_mul] <;>
    norm_num

/-- Witness for C3 on a histogram holding only class 1 with 42 pixels. -/
theorem stats_area_linear_witness :
    (buildStats [("1", 42)]).gain_sqkm = 42 * (1 / 10000) ∧
    (buildStats [("1", 42)]).loss_sqkm = 0 :=
  ⟨(stats_area_linear [("1", 42)] 42).1 rfl,
    (stats_area_linear [("1", 42)] 42).2.2.2.1 rfl⟩

/-- Median of a one-element list is that element. -/
lemma medianQ_singleton (x : ℚ) : medianQ [x] = x := by
  simp [medianQ, sortQ, insertSorted]

/-- Inserting into a list permutes to consing. -/
lemma insertSorted_perm (x : ℚ) (l : List ℚ) :
    List.Perm (insertSorted x l) (x :: l) := by
  induction l with
  | nil => simp [insertSorted]
  | cons y ys ih =>
    by_cases h : x ≤ y
    · simp [insertSorted, h]
    · simp only [insertSorted, if_neg h]
      exact (ih.cons y).trans (List.Perm.swap x y ys)

/-- Inserting into a sorted list keeps it sorted. -/
lemma insertSorted_sorted (x : ℚ) (l : List ℚ) (h : l.Sorted (· ≤ ·)) :
    (insertSorted x l).Sorted (· ≤ ·) := by
  induction l with
  | nil => simp [insertSorted]
  | cons y ys ih =>
    rw [List.sorted_cons] at h
    by_cases hxy : x ≤ y
    · simp only [insertSorted, if_pos hxy]
      rw [List.sorted_cons]
      constructor
      · intro z hz
        rcases List.mem_cons.mp hz with rfl | hzys
        · exact hxy
        · exact hxy.trans (h.1 z hzys)
      · exact List.sorted_cons.mpr h
    · simp only [insertSorted, if_neg hxy]
      rw [List.sorted_cons]
      constructor
      · intro z hz
        rcases List.mem_cons.mp ((insertSorted_perm x ys).mem_iff.mp hz) with rfl | hzys
        · exact le_of_not_le hxy
        · exact h.1 z hzys
      · exact ih h.2

/-- `sortQ` permutes its input. -/
lemma sortQ_perm (l : List ℚ) : List.Perm (sortQ l) l := by
  induction l with
  | nil => simp [sortQ]
  | cons x xs ih =>
    exact (insertSorted_perm x (sortQ xs)).trans (ih.cons x)

/-- `sortQ` sorts its input. -/
lemma sortQ_sorted (l : List ℚ) : (sortQ l).Sorted (· ≤ ·) := by
  induction l with
  | nil => simp [sortQ]
  | cons x xs ih => exact insertSorted_sorted x (sortQ xs) ih

/-- C4: the Mosaic Builder keeps exactly the images intersecting the ROI,
inside the half-open date range, with cloudy-pixel percentage strictly
below 30; on a successful remote query it never errors, returns the
no-data sentinel exactly when no image passes the filter, and otherwise
builds an image that is clipped to the ROI, masks every pixel whose QA
bits 10 (cloud) and 11 (cirrus) are not both clear in every contributing
image, and carries at each unmasked pixel the median — the middle element
(or mean of the two middle elements) of any sorted permutation — of the
10000-divided reflectance values of all contributing masked images. -/
theorem get_sentinel_mosaic_pipeline (catalog : List EEImage) (roi : Geom)
    (startD endD : String) :
    (∀ i, keepImage roi startD endD i = true ↔
      (i.intersects roi.gid = true ∧ dateLtb i.date startD = false ∧
        dateLtb i.date endD = true ∧ i.cloudyPct < 30)) ∧
    (∀ i p, cloudFree i p = true ↔
      (i.qa60 p &&& 2 ^ 10 = 0 ∧ i.qa60 p &&& 2 ^ 11 = 0)) ∧
    (∀ e, get_sentinel_mosaic (.ok catalog) roi startD endD ≠ .error e) ∧
    (get_sentinel_mosaic (.ok catalog) roi startD endD = .ok none ↔
      ∀ i ∈ catalog, keepImage roi startD endD i = false) ∧
    (∀ m, get_sentinel_mosaic (.ok catalog) roi startD endD = .ok (some m) →
      (∀ p, roi.containsPix p = false → m p = none) ∧
      (∀ p, (∀ i ∈ catalog, keepImage roi startD endD i = true →
          cloudFree i p = false) → m p = none) ∧
      (∀ p b, roi.containsPix p = true →
        (catalog.filter (keepImage roi startD endD)).filter
            (fun j => cloudFree j p) ≠ [] →
        pixBand m p b = some (medianQ
          (((catalog.filter (keepImage roi startD endD)).filter
              (fun j => cloudFree j p)).map (fun i => i.band b p / 10000))))) ∧
    (∀ (l s : List ℚ), List.Perm l s → s.Sorted (· ≤ ·) →
      (l.length % 2 = 1 → medianQ l = s.getD (l.length / 2) 0) ∧
      (l.length % 2 = 0 →
        medianQ l = (s.getD (l.length / 2 - 1) 0 + s.getD (l.length / 2) 0) / 2)) := by
  have hfiltiff :
      (catalog.filter (keepImage roi startD endD)).length = 0 ↔
        ∀ i ∈ catalog, keepImage roi startD endD i = false := by
    rw [List.length_eq_zero, List.filter_eq_nil_iff]
    simp [Bool.not_eq_true]
  refine ⟨?_, ?_, ?_, ?_, ?_, ?_⟩
  · intro i
    simp [keepImage, Bool.and_eq_true, Bool.not_eq_true', and_assoc]
  · intro i p
    simp [cloudFree, Bool.and_eq_true]
  · intro e
    by_cases h0 : (catalog.filter (keepImage roi startD endD)).length = 0 <;>
      simp [get_sentinel_mosaic, h0]
  · by_cases h0 : (catalog.filter (keepImage roi startD endD)).length = 0
    · simp only [get_sentinel_mosaic, h0, if_true]
      simp only [true_iff]
      exact hfiltiff.mp h0
    · simp only [get_sentinel_mosaic, h0, if_false]
      constructor
      · intro h
        exact absurd h (by simp)
      · intro hall
        exact absurd (hfiltiff.mpr hall) h0
  · intro m hm
    by_cases h0 : (catalog.filter (keepImage roi startD endD)).length = 0
    · simp [get_sentinel_mosaic, h0] at hm
    · simp only [get_sentinel_mosaic, h0, if_false, Except.ok.injEq,
        Option.some.injEq] at hm
      refine ⟨?_, ?_, ?_⟩
      · intro p hp
        rw [← hm]
        simp [hp]
      · intro p hnone
        rw [← hm]
        have hc : (catalog.filter (keepImage roi startD endD)).filter
            (fun j => cloudFree j p) = [] := by
          rw [List.filter_eq_nil_iff]
          intro i hi
          have hmem := List.mem_filter.mp hi
          simp [hnone i hmem.1 hmem.2]
        cases hcp : roi.containsPix p <;>
          simp [mosaicPixel, hc, hcp]
      · intro p b hp hne
        rw [← hm]
        rcases hfilter : (catalog.filter (keepImage roi startD endD)).filter
            (fun j => cloudFree j p) with _ | ⟨a, as⟩
        · exact absurd hfilter hne
        · simp [pixBand, mosaicPixel, hp, hfilter]
  · intro l s hperm hsorted
    have hs : s = sortQ l :=
      List.eq_of_perm_of_sorted (hperm.symm.trans (sortQ_perm l).symm) hsorted
        (sortQ_sorted l)
    have hlen : (sortQ l).length = l.length := (sortQ_perm l).length_eq
    subst hs
    constructor <;> intro hpar <;> simp [medianQ, hlen, hpar]

/-- Witness for C4: a single qualifying cloud-free scene with reflectance
5000 yields an unmasked mosaic pixel holding the median of the contributed
values, here 5000 / 10000. -/
theorem get_sentinel_mosaic_pipeline_witness :
    pixBand
      (fun p => if testRoi.containsPix p
        then mosaicPixel ([testImg].filter (keepImage testRoi "2020-01-01" "2020-02-01")) p
        else none)
      0 "B3" = some (5000 / 10000) := by
  have h := (((get_sentinel_mosaic_pipeline [testImg] testRoi "2020-01-01"
    "2020-02-01").2.2.2.2.1 _ rfl).2.2) 0 "B3" rfl (List.cons_ne_nil _ _)
  rw [h]
  rw [show ((([testImg].filter (keepImage testRoi "2020-01-01" "2020-02-01")).filter
      (fun j => cloudFree j 0)).map (fun i => i.band "B3" 0 / 10000)) =
      [(5000 : ℚ) / 10000] from rfl]
  rw [medianQ_singleton]

/-- C5: every exception raised in the /analyze flow that is not a no-data
404 is caught at the top level and surfaced as an HTTP 500 whose detail is
the raw exception message: a geometry-construction failure, a failure of
either collection query, and a failure of the render or stats call in a
run that reaches it each yield exactly that 500; the Mosaic Builder
re-raises its remote exception to the caller unchanged; and the only
possible outcomes at all are success, the two period 404s, or such a
500. -/
theorem analyze_change_error_surface (env : Env) (req : AnalysisRequest) :
    (∀ e, env.geom = .error e → (analyze_change env req).1 = .httpError 500 e) ∧
    (∀ e roi, env.geom = .ok roi → env.fetch1 = .error e →
      (analyze_change env req).1 = .httpError 500 e) ∧
    (∀ e roi c1, env.geom = .ok roi → env.fetch1 = .ok c1 →
      env.fetch2 = .error e → (analyze_change env req).1 = .httpError 500 e) ∧
    (∀ e roi c1 c2, env.geom = .ok roi → env.fetch1 = .ok c1 →
      env.fetch2 = .ok c2 →
      (c1.filter (keepImage roi req.date1_start req.date1_end)).length ≠ 0 →
      (c2.filter (keepImage roi req.date2_start req.date2_end)).length ≠ 0 →
      env.tileUrl = .error e →
      (analyze_change env req).1 = .httpError 500 e) ∧
    (∀ e roi c1 c2 url, env.geom = .ok roi → env.fetch1 = .ok c1 →
      env.fetch2 = .ok c2 →
      (c1.filter (keepImage roi req.date1_start req.date1_end)).length ≠ 0 →
      (c2.filter (keepImage roi req.date2_start req.date2_end)).length ≠ 0 →
      env.tileUrl = .ok url → env.statsInfo = .error e →
      (analyze_change env req).1 = .httpError 500 e) ∧
    (∀ e roi sD eD, get_sentinel_mosaic (.error e) roi sD eD = .error e) ∧
    ((∃ u s, (analyze_change env req).1 = .ok u s) ∨
      (analyze_change env req).1 = .httpError 404 (period1Msg req) ∨
      (analyze_change env req).1 = .httpError 404 (period2Msg req) ∨
      (∃ e, (analyze_change env req).1 = .httpError 500 e ∧
        (env.geom = .error e ∨ env.fetch1 = .error e ∨ env.fetch2 = .error e ∨
          env.tileUrl = .error e ∨ env.statsInfo = .error e))) := by
  refine ⟨?_, ?_, ?_, ?_, ?_, ?_, ?_⟩
  · intro e hg
    simp [analyze_change, hg]
  · intro e roi hg hf1
    simp [analyze_change, hg, hf1, get_sentinel_mosaic]
  · intro e roi c1 hg hf1 hf2
    by_cases h1 : (c1.filter (keepImage roi req.date1_start req.date1_end)).length = 0 <;>
      simp [analyze_change, hg, hf1, hf2, get_sentinel_mosaic, h1]
  · intro e roi c1 c2 hg hf1 hf2 h1 h2 ht
    simp [analyze_change, hg, hf1, hf2, get_sentinel_mosaic, h1, h2, ht]
  · intro e roi c1 c2 url hg hf1 hf2 h1 h2 ht hs
    simp [analyze_change, hg, hf1, hf2, get_sentinel_mosaic, h1, h2, ht, hs]
  · intro e roi sD eD
    rfl
  · rcases hg : env.geom with eg | roi
    · exact .inr (.inr (.inr ⟨eg, by simp [analyze_change, hg], .inl rfl⟩))
    · rcases hf1 : env.fetch1 with e1 | c1
      · exact .inr (.inr (.inr ⟨e1,
          by simp [analyze_change, hg, hf1, get_sentinel_mosaic],
          .inr (.inl rfl)⟩))
      · by_cases h1 : (c1.filter (keepImage roi req.date1_start req.date1_end)).length = 0
        · rcases hf2 : env.fetch2 with e2 | c2
          · exact .inr (.inr (.inr ⟨e2,
              by simp [analyze_change, hg, hf1, hf2, get_sentinel_mosaic, h1],
              .inr (.inr (.inl rfl))⟩))
          · by_cases h2 : (c2.filter (keepImage roi req.date2_start req.date2_end)).length = 0
            · exact .inr (.inl
                (by simp [analyze_change, hg, hf1, hf2, get_sentinel_mosaic, h1, h2]))
            · exact .inr (.inl
                (by simp [analyze_change, hg, hf1, hf2, get_sentinel_mosaic, h1, h2]))
        · rcases hf2 : env.fetch2 with e2 | c2
          · exact .inr (.inr (.inr ⟨e2,
              by simp [analyze_change, hg, hf1, hf2, get_sentinel_mosaic, h1],
              .inr (.inr (.inl rfl))⟩))
          · by_cases h2 : (c2.filter (keepImage roi req.date2_start req.date2_end)).length = 0
            · exact .inr (.inr (.inl
                (by simp [analyze_change, hg, hf1, hf2, get_sentinel_mosaic, h1, h2])))
            · rcases ht : env.tileUrl with et | url
              · exact .inr (.inr (.inr ⟨et,
                  by simp [analyze_change, hg, hf1, hf2, get_sentinel_mosaic, h1, h2, ht],
                  .inr (.inr (.inr (.inl rfl)))⟩))
              · rcases hs : env.statsInfo with es | info
                · exact .inr (.inr (.inr ⟨es,
                    by simp [analyze_change, hg, hf1, hf2, get_sentinel_mosaic,
                      h1, h2, ht, hs],
                    .inr (.inr (.inr (.inr rfl)))⟩))
                · exact .inl ⟨url, buildStats ((info.lookup "constant").getD []),
                    by simp [analyze_change, hg, hf1, hf2, get_sentinel_mosaic,
                      h1, h2, ht, hs]⟩

/-- Witness for C5: a concrete run whose Period-2 collection query raises
is surfaced as a 500 carrying the raw exception message. -/
theorem analyze_change_error_surface_witness :
    (analyze_change envEmptyThenRaise testReq).1 = .httpError 500 "boom" :=
  (analyze_change_error_surface envEmptyThenRaise testReq).2.2.1 "boom" testRoi []
    rfl rfl rfl

/-- C2 counterexample: Period 1's collection query returns zero matching
images, yet because the Period-2 query raises an exception first-class, the
handler answers 500, not the Period-1 NOT_FOUND. -/
theorem period_empty_not_always_404 :
    envEmptyThenRaise.fetch1 = .ok [] ∧
    (analyze_change envEmptyThenRaise testReq).1 = .httpError 500 "boom" ∧
    (analyze_change envEmptyThenRaise testReq).1 ≠
      .httpError 404 (period1Msg testReq) := by
  refine ⟨rfl, rfl, ?_⟩
  decide

/-- C2 as amended: when both fetches complete without raising, an empty
Period 1 yields the Period-1 404 (regardless of Period 2) and an empty
Period 2 with a non-empty Period 1 yields the Period-2 404; in both cases
the recorded steps stop at the two fetches, so classification and change
detection never run, and the two suggestion wordings are distinct. -/
theorem period_empty_gives_404 (env : Env) (req : AnalysisRequest) (roi : Geom)
    (c1 c2 : List EEImage) (hg : env.geom = .ok roi)
    (h1 : env.fetch1 = .ok c1) (h2 : env.fetch2 = .ok c2) :
    ((c1.filter (keepImage roi req.date1_start req.date1_end)).length = 0 →
      analyze_change env req = (.httpError 404 (period1Msg req), [.fetch1, .fetch2])) ∧
    ((c1.filter (keepImage roi req.date1_start req.date1_end)).length ≠ 0 →
      (c2.filter (keepImage roi req.date2_start req.date2_end)).length = 0 →
      analyze_change env req = (.httpError 404 (period2Msg req), [.fetch1, .fetch2])) ∧
    Ev.classify1 ∉ [Ev.fetch1, Ev.fetch2] ∧
    Ev.classify2 ∉ [Ev.fetch1, Ev.fetch2] ∧
    Ev.detect ∉ [Ev.fetch1, Ev.fetch2] ∧
    period1Suggestion ≠ period2Suggestion := by
  refine ⟨fun he1 => ?_, fun hne1 he2 => ?_, by decide, by decide, by decide, by decide⟩
  · by_cases hc2 : (c2.filter (keepImage roi req.date2_start req.date2_end)).length = 0 <;>
      simp [analyze_change, hg, h1, h2, get_sentinel_mosaic, he1, hc2]
  · simp [analyze_change, hg, h1, h2, get_sentinel_mosaic, hne1, he2]

/-- Witness for the amended C2: with both queries succeeding and Period 1
empty, the handler returns the Period-1 404 after exactly the two fetches. -/
theorem period_empty_gives_404_witness :
    analyze_change envBothEmpty testReq =
      (.httpError 404 (period1Msg testReq), [.fetch1, .fetch2]) :=
  (period_empty_gives_404 envBothEmpty testReq testRoi [] [] rfl rfl rfl).1 rfl

/-- C9: when the Period-1 fetch completes with the no-data sentinel, the
Period-2 fetch is still issued before any NOT_FOUND is raised, and the
Period-1 message takes precedence over Period 2's whenever Period 1 is
empty (in particular when both are). -/
theorem fetch2_runs_and_period1_precedence (env : Env) (req : AnalysisRequest)
    (roi : Geom) (c1 : List EEImage) (hg : env.geom = .ok roi)
    (h1 : env.fetch1 = .ok c1)
    (he : (c1.filter (keepImage roi req.date1_start req.date1_end)).length = 0) :
    Ev.fetch2 ∈ (analyze_change env req).2 ∧
    (∀ c2, env.fetch2 = .ok c2 →
      (analyze_change env req).1 = .httpError 404 (period1Msg req)) := by
  constructor
  · rcases hf2 : env.fetch2 with e2 | c2
    · simp [analyze_change, hg, h1, hf2, get_sentinel_mosaic, he]
    · by_cases h2 : (c2.filter (keepImage roi req.date2_start req.date2_end)).length = 0 <;>
        simp [analyze_change, hg, h1, hf2, get_sentinel_mosaic, he, h2]
  · intro c2 hf2
    by_cases h2 : (c2.filter (keepImage roi req.date2_start req.date2_end)).length = 0 <;>
      simp [analyze_change, hg, h1, hf2, get_sentinel_mosaic, he, h2]

/-- Witness for C9: both queries empty — the trace still holds the second
fetch, and the Period-1 message is the one returned. -/
theorem fetch2_runs_and_period1_precedence_witness :
    Ev.fetch2 ∈ (analyze_change envBothEmpty testReq).2 ∧
    (analyze_change envBothEmpty testReq).1 = .httpError 404 (period1Msg testReq) :=
  ⟨(fetch2_runs_and_period1_precedence envBothEmpty testReq testRoi [] rfl rfl rfl).1,
    (fetch2_runs_and_period1_precedence envBothEmpty testReq testRoi [] rfl rfl rfl).2
      [] rfl⟩

/-- C8 counterexample: a schema-valid body whose geometry is rejected
client-side fails before any remote step (empty trace) but is surfaced as
a 500 server error, not a client (4xx) error. -/
theorem malformed_geometry_not_client_error :
    handleRequest envBadGeometry (some testReq) =
      (.httpError 500 "Invalid GeoJSON geometry.", []) ∧
    isClientError 500 = false :=
  ⟨rfl, rfl⟩

/-- C8 as amended: a body failing schema validation is rejected with a 422
client error before the handler runs, with no remote step; a schema-valid
body whose geometry construction fails also performs no remote step, but
is surfaced as a 500 server error rather than a client error. -/
theorem body_failures_before_remote_calls (env : Env) (req : AnalysisRequest)
    (e : String) :
    (handleRequest env none = (.httpError 422 validationErrorDetail, []) ∧
      isClientError 422 = true) ∧
    (env.geom = .error e →
      handleRequest env (some req) = (.httpError 500 e, []) ∧
      isClientError 500 = false) := by
  refine ⟨⟨rfl, rfl⟩, fun hg => ⟨?_, rfl⟩⟩
  simp [handleRequest, analyze_change, hg]

/-- Witness for the amended C8 at a concrete failing geometry. -/
theorem body_failures_before_remote_calls_witness :
    handleRequest envBadGeometry none =
      (.httpError 422 validationErrorDetail, []) ∧
    handleRequest envBadGeometry (some testReq) =
      (.httpError 500 "Invalid GeoJSON geometry.", []) :=
  ⟨(body_failures_before_remote_calls envBadGeometry testReq
      "Invalid GeoJSON geometry.").1.1,
    ((body_failures_before_remote_calls envBadGeometry testReq
      "Invalid GeoJSON geometry.").2 rfl).1⟩

/-- C6: the bootstrap uses service-account credentials exactly when the
account id and key-file path are both configured (non-empty) and the key
file exists, falling back to default credentials otherwise; an exception in
either initialization becomes a logged, non-fatal outcome rather than a
propagated failure. -/
theorem authBootstrap_branching (env : AuthEnv) :
    (useServiceAccount env = true ↔
      (pyTruthy env.service_account = true ∧ pyTruthy env.key_file = true ∧
        env.pathExists (env.key_file.getD "") = true)) ∧
    (useServiceAccount env = true → env.serviceInit = .ok () →
      authBootstrap env = .serviceOk) ∧
    (useServiceAccount env = false → env.defaultInit = .ok () →
      authBootstrap env = .defaultOk) ∧
    (∀ e, useServiceAccount env = true → env.serviceInit = .error e →
      authBootstrap env = .failed e) ∧
    (∀ e, useServiceAccount env = false → env.defaultInit = .error e →
      authBootstrap env = .failed e) := by
  refine ⟨?_, fun hu hi => ?_, fun hu hi => ?_, fun e hu hi => ?_, fun e hu hi => ?_⟩
  · simp [useServiceAccount, Bool.and_eq_true, and_assoc]
  · simp [authBootstrap, hu, hi]
  · simp [authBootstrap, hu, hi]
  · simp [authBootstrap, hu, hi]
  · simp [authBootstrap, hu, hi]

/-- Witness for C6: with a configured account, an existing key file and a
successful initialization, the service-account path is taken. -/
theorem authBootstrap_branching_witness :
    authBootstrap envServiceAuth = .serviceOk :=
  (authBootstrap_branching envServiceAuth).2.1 rfl rfl
